import Mathlib

/-!
# Checkout and fulfillment pipeline of the storefront backend

Shallow embedding of the checkout subsystem of `src/server.js` (the PayPal
variant): the Mongoose `Order` / `Cart` schemas, `getPayPalAccessToken`,
the `POST /api/orders/create-paypal-order` and
`POST /api/orders/capture-paypal-order` handlers, the `PUT /api/cart`
handler, and `sendOrderConfirmationEmail`.

Conventions of the embedding:
* JS numbers that carry money or quantities are modelled as `Int`
  (all claims are arithmetic-shape independent);
* timestamps (`new Date()`) are modelled as an explicit `now : Nat`
  parameter threaded into the handler;
* the MongoDB `orders` collection is a `List Order`, `findOne` is
  `List.find?`, and Mongoose `document.save()` after in-place mutation is
  replacement of the first matching element;
* external effects (token endpoint, gateway order create/capture, the
  `findOne` ledger query, `save`, cart clearing, the e-mail attempt) are
  recorded in an `Event` trace in the order the handler performs them;
* request-body fields that may be absent / non-array / NaN are `Option`s,
  with `none` standing for every falsy or invalid shape rejected by the
  corresponding JS check.
-/

/-- `orderSchema.orderStatus` enum: `['pending', 'processing', 'completed', 'cancelled']`.
Note the schema has no `failed` member. -/
inductive OrderStatus where
  | pending
  | processing
  | completed
  | cancelled
deriving DecidableEq, Repr

/-- `orderSchema.paymentResult` subdocument: all four fields optional in the schema. -/
structure PaymentResult where
  id : Option String
  status : Option String
  update_time : Option String
  email_address : Option String
deriving DecidableEq, Repr

/-- Shape shared by `cartSchema.items` and `orderSchema.orderItems`:
`{productId, title, artist, price, image?, quantity}`. -/
structure OrderItem where
  productId : String
  title : String
  artist : String
  price : Int
  quantity : Int
  image : Option String
deriving DecidableEq, Repr

/-- A document of the `orders` collection (`orderSchema`). -/
structure Order where
  user : String
  orderItems : List OrderItem
  paymentResult : PaymentResult
  totalPrice : Int
  isPaid : Bool
  paidAt : Option Nat
  orderStatus : OrderStatus
deriving DecidableEq, Repr

/-- External effects performed by the handlers, recorded in program order. -/
inductive Event where
  | tokenRequest
  | gwCreateOrder
  | gwCapture (orderID : String)
  | ledgerFindOne (orderID : String) (userId : String)
  | ledgerSave
  | cartClear (userId : String)
  | emailAttempt
deriving DecidableEq, Repr

/-- `getPayPalAccessToken`: builds the Basic-auth header and POSTs to
`/v1/oauth2/token` on every invocation, returning `response.data.access_token`.
The function body holds no cache: the only free variables are the configured
client id / secret. `freshToken` is the token the endpoint returns to this
particular request. -/
def getPayPalAccessToken (freshToken : String) : String × List Event :=
  (freshToken, [Event.tokenRequest])

/-- Two successive `getPayPalAccessToken` calls, with the token endpoint
answering `t1` to the first request and `t2` to the second. -/
def accessTokenTwice (t1 t2 : String) : (String × String) × List Event :=
  let r1 := getPayPalAccessToken t1
  let r2 := getPayPalAccessToken t2
  ((r1.1, r2.1), r1.2 ++ r2.2)

/-- Body of `POST /api/orders/create-paypal-order`: `{ items, totalPrice }`.
`items = none` models a missing or non-array `items` field
(the JS check `!items || !Array.isArray(items)`). -/
structure CreateReq where
  items : Option (List OrderItem)
  totalPrice : Int
deriving DecidableEq, Repr

/-- Outcome of the create handler. -/
inductive CreateResp where
  | itemsRequired
  | invalidTotal
  | created (paypalOrderId : String) (dbOrder : Order)
deriving DecidableEq, Repr

/-- `POST /api/orders/create-paypal-order` handler body.
Checks `items` (400 `'Order items are required'`), then
`!totalPrice || totalPrice <= 0` (400 `'Valid total price is required'`;
over `Int` the truthiness test on `0` is subsumed by `≤ 0`), then fetches an
access token, POSTs the PayPal order, and saves a new `Order` document with
`orderItems := items`, `totalPrice := totalPrice` (stored verbatim from the
request body), `paymentResult = {id: response.data.id, status: 'CREATED'}`
and the schema defaults `isPaid = false`, `orderStatus = 'pending'`.
`paypalOrderId` is the id the gateway returns.
Result: (response, new orders collection, event trace). The `new Order({...})`
document it saves is split out as `createdOrderDoc`: `orderItems` and
`totalPrice` taken verbatim from the request body, `paymentResult` set to the
gateway id with status `'CREATED'`, and the schema defaults
`isPaid = false`, `orderStatus = 'pending'`. -/
def createdOrderDoc (userId : String) (items : List OrderItem) (tp : Int)
    (paypalOrderId : String) : Order :=
  { user := userId
    orderItems := items
    paymentResult :=
      { id := some paypalOrderId, status := some "CREATED"
        update_time := none, email_address := none }
    totalPrice := tp
    isPaid := false
    paidAt := none
    orderStatus := OrderStatus.pending }

def createPaypalOrder (userId : String) (req : CreateReq) (freshToken : String)
    (paypalOrderId : String) (ledger : List Order) :
    CreateResp × List Order × List Event :=
  match req.items with
  | none => (CreateResp.itemsRequired, ledger, [])
  | some items =>
    if items.length = 0 then
      (CreateResp.itemsRequired, ledger, [])
    else if req.totalPrice ≤ 0 then
      (CreateResp.invalidTotal, ledger, [])
    else
      let tok := getPayPalAccessToken freshToken
      let order := createdOrderDoc userId items req.totalPrice paypalOrderId
      (CreateResp.created paypalOrderId order, ledger ++ [order],
        tok.2 ++ [Event.gwCreateOrder])

/-- Outcome of the external mail transport (`transporter.sendMail`). -/
inductive MailOutcome where
  | sent
  | transportError
deriving DecidableEq, Repr

/-- `transporter.sendMail(mailOptions)`: resolves, or rejects with a transport
error. -/
def sendMailExternal (m : MailOutcome) : Except String Unit :=
  match m with
  | MailOutcome.sent => Except.ok ()
  | MailOutcome.transportError => Except.error "mail transport failed"

/-- `sendOrderConfirmationEmail`: awaits `transporter.sendMail` inside
`try { ... } catch (error) { console.error(...) }` — the catch block only logs,
so the function always returns normally and never rethrows. -/
def sendOrderConfirmationEmail (m : MailOutcome) : Except String Unit :=
  match sendMailExternal m with
  | Except.ok _ => Except.ok ()
  | Except.error _ => Except.ok ()

/-- The `findOne` query of the capture handler:
`Order.findOne({'paymentResult.id': orderID, user: req.user.id})`.
No `orderStatus` condition appears in the filter. -/
def findOrder (orderID userId : String) (ledger : List Order) : Option Order :=
  ledger.find? (fun o => o.paymentResult.id == some orderID && o.user == userId)

/-- Replace the first element satisfying `p` by its image under `f`
(Mongoose `document.save()` of the one fetched document). -/
def updateFirst (p : Order → Bool) (f : Order → Order) : List Order → List Order
  | [] => []
  | o :: rest => if p o then f o :: rest else o :: updateFirst p f rest

/-- The in-place mutation the capture handler performs on the fetched order
when `captureDetails.status === 'COMPLETED'`: `isPaid = true`,
`paidAt = new Date()`, `orderStatus = 'completed'`, and `paymentResult`
overwritten with the capture metadata. Every other field is untouched. -/
def finalizeOrderDoc (o : Order) (orderID status ut em : String) (now : Nat) :
    Order :=
  { o with
    isPaid := true
    paidAt := some now
    orderStatus := OrderStatus.completed
    paymentResult :=
      { id := some orderID, status := some status
        update_time := some ut, email_address := some em } }

/-- What the gateway's `/v2/checkout/orders/:id/capture` call returns, as read
by the handler: `captureDetails.status`, `captureDetails.update_time`,
`response.data.payer.email_address`. -/
structure GatewayCapture where
  status : String
  update_time : String
  payer_email : String
deriving DecidableEq, Repr

/-- Outcome of the capture handler. -/
inductive CaptureResp where
  | orderIdRequired
  | notFound
  | notCompleted (status : String)
  | success (order : Order)
  | serverError (msg : String)
deriving DecidableEq, Repr

/-- `POST /api/orders/capture-paypal-order` handler body.
Checks `orderID` (400), fetches an access token, POSTs the gateway capture
(no ledger access yet), then `findOne` by `(paymentResult.id, user)` (404 if
none). If `captureDetails.status === 'COMPLETED'`: mutate and `save()` the
document, clear the user's cart (`Cart.findOneAndUpdate({user}, {items: []})`),
`await sendOrderConfirmationEmail(...)` (a rejection there would fall to the
handler's catch and answer 500), and answer with the saved order. Otherwise:
400 `'Payment was not completed'` with `status: captureDetails.status`, the
ledger and cart untouched.
Result: (response, new orders collection, new cart items, event trace). -/
def capturePaypalOrder (userId : String) (orderID : Option String)
    (gw : GatewayCapture) (now : Nat) (mail : MailOutcome) (freshToken : String)
    (ledger : List Order) (cartItems : List OrderItem) :
    CaptureResp × List Order × List OrderItem × List Event :=
  match orderID with
  | none => (CaptureResp.orderIdRequired, ledger, cartItems, [])
  | some oid =>
    let tok := getPayPalAccessToken freshToken
    let pre := tok.2 ++ [Event.gwCapture oid, Event.ledgerFindOne oid userId]
    match findOrder oid userId ledger with
    | none => (CaptureResp.notFound, ledger, cartItems, pre)
    | some order =>
      if gw.status = "COMPLETED" then
        let order2 := finalizeOrderDoc order oid gw.status gw.update_time
          gw.payer_email now
        let ledger2 := updateFirst
          (fun o => o.paymentResult.id == some oid && o.user == userId)
          (fun _ => order2) ledger
        let trace := pre ++ [Event.ledgerSave, Event.cartClear userId,
          Event.emailAttempt]
        match sendOrderConfirmationEmail mail with
        | Except.error e => (CaptureResp.serverError e, ledger2, [], trace)
        | Except.ok _ => (CaptureResp.success order2, ledger2, [], trace)
      else
        (CaptureResp.notCompleted gw.status, ledger, cartItems, pre)

/-- An element of the `items` array sent to `PUT /api/cart`. A `none` field
models a value the corresponding JS check rejects: a falsy `productId` /
`title` / `artist`, or a `price` / `quantity` that is `undefined`, `null`, or
not coercible to a number (`isNaN(Number(x))`). -/
structure CartItemInput where
  productId : Option String
  title : Option String
  artist : Option String
  price : Option Int
  quantity : Option Int
  image : Option String
deriving DecidableEq, Repr

/-- The per-item field check of the `PUT /api/cart` loop: the `missingFields`
array accumulated for one item, in the order the handler pushes them. -/
def missingFields (item : CartItemInput) : List String :=
  (if item.productId.isNone then ["productId"] else []) ++
  (if item.title.isNone then ["title"] else []) ++
  (if item.artist.isNone then ["artist"] else []) ++
  (if item.price.isNone then ["price (must be a valid number)"] else []) ++
  (if item.quantity.isNone then ["quantity (must be a valid number)"] else [])

/-- The numeric coercion `items[i].price = Number(item.price)` /
`items[i].quantity = Number(item.quantity)` applied to an item that passed
validation (all `getD` defaults are dead for a valid item). -/
def coerceItem (item : CartItemInput) : OrderItem :=
  { productId := item.productId.getD ""
    title := item.title.getD ""
    artist := item.artist.getD ""
    price := item.price.getD 0
    quantity := item.quantity.getD 0
    image := item.image }

/-- The `for (let i = 0; i < items.length; i++)` validation loop: stops and
answers 400 at the FIRST item whose `missingFields` is non-empty, reporting
that item's index and its `missingFields`; on full success yields the coerced
items. -/
def validateItems : List CartItemInput → Except (Nat × List String) (List OrderItem)
  | [] => Except.ok []
  | item :: rest =>
    let m := missingFields item
    if m.length > 0 then Except.error (0, m)
    else
      match validateItems rest with
      | Except.error (i, m2) => Except.error (i + 1, m2)
      | Except.ok tail => Except.ok (coerceItem item :: tail)

/-- Outcome of the `PUT /api/cart` handler. -/
inductive CartUpdateResp where
  | itemsRequired
  | itemInvalid (index : Nat) (missing : List String)
  | updated (items : List OrderItem)
deriving DecidableEq, Repr

/-- `PUT /api/cart` handler body: rejects a missing or non-array `items`
(modelled by `none`), runs the validation loop, and only on full success
overwrites the stored cart via `Cart.findOneAndUpdate({user}, {items, updatedAt})`.
On any rejection the stored cart is untouched.
Result: (response, new stored cart items). -/
def updateCart (items : Option (List CartItemInput))
    (cartItems : List OrderItem) : CartUpdateResp × List OrderItem :=
  match items with
  | none => (CartUpdateResp.itemsRequired, cartItems)
  | some its =>
    match validateItems its with
    | Except.error (i, m) => (CartUpdateResp.itemInvalid i m, cartItems)
    | Except.ok coerced => (CartUpdateResp.updated coerced, coerced)

/-- Modelled from the spec: `Σ(unitPrice × quantity)` over the snapshotted
items — the total the spec says `totalAmount` equals. The create handler
itself never computes this sum (it stores the request's `totalPrice`), so this
definition exists only to be compared with the stored field. -/
def specItemsTotal (items : List OrderItem) : Int :=
  (items.map (fun it => it.price * it.quantity)).sum

/-! ### Concrete fixtures used by counterexamples and witnesses -/

/-- A concrete catalog item, as snapshotted into carts and orders. -/
def demoItem : OrderItem :=
  { productId := "A", title := "Song A", artist := "Artist X"
    price := 2, quantity := 1, image := none }

/-- A concrete pending order, as the create handler persists it for
gateway order id `PP1` and user `u1`. -/
def demoPending : Order :=
  { user := "u1"
    orderItems := [demoItem]
    paymentResult :=
      { id := some "PP1", status := some "CREATED"
        update_time := none, email_address := none }
    totalPrice := 2
    isPaid := false
    paidAt := none
    orderStatus := OrderStatus.pending }

/-- `demoPending` after a successful capture at time 5. -/
def demoCompleted : Order :=
  finalizeOrderDoc demoPending "PP1" "COMPLETED" "t1" "payer@x" 5

/-- A gateway capture answer with `captureDetails.status = 'COMPLETED'`. -/
def demoGwOk : GatewayCapture :=
  { status := "COMPLETED", update_time := "t1", payer_email := "payer@x" }

/-- First capture call for `PP1` against a ledger holding the pending order. -/
def captureRun1 : CaptureResp × List Order × List OrderItem × List Event :=
  capturePaypalOrder "u1" (some "PP1") demoGwOk 1 MailOutcome.sent "tok"
    [demoPending] [demoItem]

/-- Second capture call for the same `PP1`, replayed at a later time against
the state left by the first call. -/
def captureRun2 : CaptureResp × List Order × List OrderItem × List Event :=
  capturePaypalOrder "u1" (some "PP1")
    { status := "COMPLETED", update_time := "t2", payer_email := "payer@x" }
    2 MailOutcome.sent "tok" captureRun1.2.1 captureRun1.2.2.1

/-- Cart-update input whose `title` fails validation. -/
def inputMissingTitle : CartItemInput :=
  { productId := some "p1", title := none, artist := some "a1"
    price := some 3, quantity := some 1, image := none }

/-- Cart-update input whose `productId` fails validation. -/
def inputMissingId : CartItemInput :=
  { productId := none, title := some "t2", artist := some "a2"
    price := some 4, quantity := some 2, image := none }

/-- Cart-update input passing every field check. -/
def inputValid : CartItemInput :=
  { productId := some "p3", title := some "t3", artist := some "a3"
    price := some 5, quantity := some 1, image := none }

/-! ### Helper lemmas -/

/-- Reading the ledger after `updateFirst` yields, position by position, either
the old document or the image of the old document under the update. -/
theorem updateFirst_getD (p : Order → Bool) (f : Order → Order)
    (l : List Order) (d : Order) (i : Nat) :
    (updateFirst p f l).getD i d = l.getD i d ∨
    (updateFirst p f l).getD i d = f (l.getD i d) := by
  induction l generalizing i with
  | nil => exact Or.inl rfl
  | cons o rest ih =>
    by_cases hp : p o
    · cases i with
      | zero => exact Or.inr (by simp [updateFirst, hp])
      | succ j => exact Or.inl (by simp [updateFirst, hp])
    · cases i with
      | zero => exact Or.inl (by simp [updateFirst, hp])
      | succ j =>
        have := ih j
        simpa [updateFirst, hp] using this

/-- When `find?` located `order`, the save replaces exactly the position that
held `order`: position by position the new ledger shows either the old
document, or `f order` where the old document was `order` itself. -/
theorem updateFirst_find_getD (p : Order → Bool) (f : Order → Order)
    (l : List Order) (order : Order) (hfind : l.find? p = some order)
    (d : Order) (i : Nat) :
    (updateFirst p f l).getD i d = l.getD i d ∨
    ((updateFirst p f l).getD i d = f order ∧ l.getD i d = order) := by
  induction l generalizing i with
  | nil => simp at hfind
  | cons o rest ih =>
    by_cases hp : p o
    · have ho : o = order := by
        rw [List.find?_cons_of_pos _ hp] at hfind
        exact Option.some.inj hfind
      subst ho
      cases i with
      | zero => exact Or.inr (by constructor <;> simp [updateFirst, hp])
      | succ j => exact Or.inl (by simp [updateFirst, hp])
    · have hfind2 : rest.find? p = some order := by
        rwa [List.find?_cons_of_neg _ hp] at hfind
      cases i with
      | zero => exact Or.inl (by simp [updateFirst, hp])
      | succ j =>
        have := ih hfind2 j
        simpa [updateFirst, hp] using this

/-- The validation loop reports the first invalid index together with that
item's full `missingFields` list. -/
theorem validateItems_first_invalid (items : List CartItemInput)
    (d : CartItemInput) (i : Nat) (hi : i < items.length)
    (hbad : missingFields (items.getD i d) ≠ [])
    (hfirst : ∀ j, j < i → missingFields (items.getD j d) = []) :
    validateItems items = Except.error (i, missingFields (items.getD i d)) := by
  induction items generalizing i with
  | nil => exact absurd hi (by simp)
  | cons a rest ih =>
    cases i with
    | zero =>
      have hlen : (missingFields a).length > 0 := by
        cases h : missingFields a with
        | nil => exact absurd h (by simpa using hbad)
        | cons x xs => simp
      simp [validateItems, hlen]
    | succ j =>
      have ha : missingFields a = [] := hfirst 0 (Nat.succ_pos j)
      have hlen : ¬ (missingFields a).length > 0 := by simp [ha]
      have hrest := ih j (by simpa using hi) (by simpa using hbad)
        (fun k hk => by simpa using hfirst (k + 1) (Nat.succ_lt_succ hk))
      simp [validateItems, hlen, hrest]

/-! ### Claim theorems -/

/-- C5: The create handler called with an empty (or missing/non-array) items
list fails with the items-required error, persists no Order (the ledger is
returned unchanged), and performs no external call (empty event trace). -/
theorem c5_empty_cart_creates_no_order (userId tok pid : String) (tp : Int)
    (ledger : List Order) (items : Option (List OrderItem))
    (h : items = none ∨ items = some []) :
    createPaypalOrder userId ⟨items, tp⟩ tok pid ledger
      = (CreateResp.itemsRequired, ledger, []) := by
  rcases h with h | h <;> subst h <;> simp [createPaypalOrder]

/-- Witness for C5 at a concrete empty-items request. -/
theorem c5_empty_cart_creates_no_order_witness :
    createPaypalOrder "u1" ⟨some [], 2⟩ "tok" "PP1" []
      = (CreateResp.itemsRequired, [], []) :=
  c5_empty_cart_creates_no_order "u1" "tok" "PP1" 2 [] (some []) (Or.inr rfl)

/-- C4 counterexample: a zero-total request with a non-empty items list is
rejected with the invalid-total error — it does not complete the order, does
not clear the cart, and no free-order fast path exists. (The only part of the
claim the code satisfies is that no gateway call is made: the trace is empty.) -/
theorem c4_zero_total_rejected_cex :
    createPaypalOrder "u1" ⟨some [demoItem], 0⟩ "tok" "PP1" []
      = (CreateResp.invalidTotal, [], []) := by decide

/-- C4 amended: the create handler rejects every request whose `totalPrice` is
≤ 0 — including exactly 0 — with the invalid-total error, making no gateway
call and persisting nothing. -/
theorem c4_nonpositive_total_rejected (userId tok pid : String)
    (items : List OrderItem) (tp : Int) (ledger : List Order)
    (hne : items.length ≠ 0) (hp : tp ≤ 0) :
    createPaypalOrder userId ⟨some items, tp⟩ tok pid ledger
      = (CreateResp.invalidTotal, ledger, []) := by
  simp [createPaypalOrder, hne, hp]

/-- Witness for the amended C4 at total exactly 0. -/
theorem c4_nonpositive_total_rejected_witness :
    createPaypalOrder "u1" ⟨some [demoItem], 0⟩ "tok" "PP1" [demoPending]
      = (CreateResp.invalidTotal, [demoPending], []) :=
  c4_nonpositive_total_rejected "u1" "tok" "PP1" [demoItem] 0 [demoPending]
    (by decide) (by decide)

/-- C10: when no order matches `(providerOrderId, userId)`, the capture
handler still performed the gateway capture call before consulting the ledger
— the trace is token request, then gateway capture, then the `findOne` — and
it answers not-found with ledger and cart unchanged. -/
theorem c10_capture_precedes_ledger_lookup (userId oid tok : String)
    (gw : GatewayCapture) (now : Nat) (mail : MailOutcome)
    (ledger : List Order) (cart : List OrderItem)
    (hf : findOrder oid userId ledger = none) :
    capturePaypalOrder userId (some oid) gw now mail tok ledger cart
      = (CaptureResp.notFound, ledger, cart,
          [Event.tokenRequest, Event.gwCapture oid,
           Event.ledgerFindOne oid userId]) := by
  simp [capturePaypalOrder, hf, getPayPalAccessToken]

/-- Witness for C10: capturing an unknown order id against an empty ledger. -/
theorem c10_capture_precedes_ledger_lookup_witness :
    capturePaypalOrder "u1" (some "NOPE") demoGwOk 3 MailOutcome.sent "tok" [] [demoItem]
      = (CaptureResp.notFound, [], [demoItem],
          [Event.tokenRequest, Event.gwCapture "NOPE",
           Event.ledgerFindOne "NOPE" "u1"]) :=
  c10_capture_precedes_ledger_lookup "u1" "NOPE" "tok" demoGwOk 3
    MailOutcome.sent [] [demoItem] (by decide)

/-- C7 counterexample: a capture whose gateway status is `DECLINED` (not
`COMPLETED`) leaves the ledger completely unchanged — the pending order stays
`pending`; it is never marked failed (the status enum has no `failed` member
and no mark-failed code exists). The error response does embed the provider
status. -/
theorem c7_no_markFailed_cex :
    capturePaypalOrder "u1" (some "PP1")
        { status := "DECLINED", update_time := "t1", payer_email := "payer@x" }
        7 MailOutcome.sent "tok" [demoPending] [demoItem]
      = (CaptureResp.notCompleted "DECLINED", [demoPending], [demoItem],
          [Event.tokenRequest, Event.gwCapture "PP1",
           Event.ledgerFindOne "PP1" "u1"]) ∧
    demoPending.orderStatus = OrderStatus.pending := by decide

/-- C7 amended: a capture whose gateway status is not `COMPLETED` returns the
payment-not-completed error with the provider's status embedded, and leaves the
ledger and cart unchanged — the matched order is not transitioned anywhere. -/
theorem c7_noncompleted_capture_leaves_order_unchanged (userId oid tok : String)
    (gw : GatewayCapture) (now : Nat) (mail : MailOutcome)
    (ledger : List Order) (cart : List OrderItem) (order : Order)
    (hf : findOrder oid userId ledger = some order)
    (hs : gw.status ≠ "COMPLETED") :
    capturePaypalOrder userId (some oid) gw now mail tok ledger cart
      = (CaptureResp.notCompleted gw.status, ledger, cart,
          [Event.tokenRequest, Event.gwCapture oid,
           Event.ledgerFindOne oid userId]) := by
  simp [capturePaypalOrder, hf, hs, getPayPalAccessToken]

/-- Witness for the amended C7 at a concrete declined capture. -/
theorem c7_noncompleted_capture_leaves_order_unchanged_witness :
    capturePaypalOrder "u1" (some "PP1")
        { status := "DECLINED", update_time := "t1", payer_email := "payer@x" }
        7 MailOutcome.transportError "tok" [demoPending] []
      = (CaptureResp.notCompleted "DECLINED", [demoPending], [],
          [Event.tokenRequest, Event.gwCapture "PP1",
           Event.ledgerFindOne "PP1" "u1"]) :=
  c7_noncompleted_capture_leaves_order_unchanged "u1" "PP1" "tok" _ 7
    MailOutcome.transportError [demoPending] [] demoPending (by decide) (by decide)

/-- C8 counterexample: two successive `getPayPalAccessToken` calls issue two
token-endpoint requests, and the second call returns the token freshly issued
to it (`tokB`), not a cached first token — there is no process-wide cache. -/
theorem c8_token_not_cached_cex :
    accessTokenTwice "tokA" "tokB"
      = (("tokA", "tokB"), [Event.tokenRequest, Event.tokenRequest]) := by decide

/-- C8 amended: every call fetches a fresh token — two successive
`getPayPalAccessToken` calls perform two token-endpoint requests and return
the respective fresh tokens, and each create/capture request performs exactly
one token-endpoint request of its own. -/
theorem c8_token_fetched_on_every_call (t1 t2 : String)
    (userId tok pid : String) (items : List OrderItem) (tp : Int)
    (ledger : List Order) (hne : items.length ≠ 0) (hp : 0 < tp)
    (cuid coid ctok : String) (gw : GatewayCapture) (now : Nat)
    (mail : MailOutcome) (l2 : List Order) (cart : List OrderItem) :
    accessTokenTwice t1 t2
        = ((t1, t2), [Event.tokenRequest, Event.tokenRequest]) ∧
    (createPaypalOrder userId ⟨some items, tp⟩ tok pid ledger).2.2.count
        Event.tokenRequest = 1 ∧
    (capturePaypalOrder cuid (some coid) gw now mail ctok l2 cart).2.2.2.count
        Event.tokenRequest = 1 := by
  have hp' : ¬ tp ≤ 0 := not_le.mpr hp
  refine ⟨rfl, ?_, ?_⟩
  · simp [createPaypalOrder, hne, hp', getPayPalAccessToken, List.count_cons]
  · cases hf : findOrder coid cuid l2 with
    | none =>
      simp [capturePaypalOrder, hf, getPayPalAccessToken, List.count_cons]
    | some order =>
      by_cases hs : gw.status = "COMPLETED"
      · cases mail <;>
          simp [capturePaypalOrder, hf, hs, getPayPalAccessToken,
            sendOrderConfirmationEmail, sendMailExternal, List.count_cons]
      · simp [capturePaypalOrder, hf, hs, getPayPalAccessToken, List.count_cons]

/-- Witness for the amended C8 at concrete create and capture requests. -/
theorem c8_token_fetched_on_every_call_witness :
    accessTokenTwice "tokA" "tokB"
        = (("tokA", "tokB"), [Event.tokenRequest, Event.tokenRequest]) ∧
    (createPaypalOrder "u1" ⟨some [demoItem], 2⟩ "tokA" "PP1" []).2.2.count
        Event.tokenRequest = 1 ∧
    (capturePaypalOrder "u1" (some "PP1") demoGwOk 1 MailOutcome.sent "tokB"
        [demoPending] [demoItem]).2.2.2.count Event.tokenRequest = 1 :=
  c8_token_fetched_on_every_call "tokA" "tokB" "u1" "tokA" "PP1" [demoItem] 2
    [] (by decide) (by decide) "u1" "PP1" "tokB" demoGwOk 1 MailOutcome.sent
    [demoPending] [demoItem]

/-- C6 counterexample: with `inputMissingTitle` invalid at index 0 and
`inputMissingId` invalid at index 1, the rejection names index 0 and its
missing field only, and is byte-identical to the rejection produced when
index 1 holds a fully valid item — so the second offending index is never
listed. The stored cart is unchanged in both cases. -/
theorem c6_only_first_offender_listed_cex :
    updateCart (some [inputMissingTitle, inputMissingId]) [demoItem]
      = (CartUpdateResp.itemInvalid 0 ["title"], [demoItem]) ∧
    updateCart (some [inputMissingTitle, inputValid]) [demoItem]
      = (CartUpdateResp.itemInvalid 0 ["title"], [demoItem]) := by decide

/-- C6 amended: the cart-update validation stops at the FIRST invalid item,
rejecting with that item's index and all of that item's missing/invalid
fields; later offending items are not reported, and the stored cart is
unchanged on rejection. -/
theorem c6_cart_update_rejects_at_first_invalid (items : List CartItemInput)
    (cart : List OrderItem) (d : CartItemInput) (i : Nat)
    (hi : i < items.length)
    (hbad : missingFields (items.getD i d) ≠ [])
    (hfirst : ∀ j, j < i → missingFields (items.getD j d) = []) :
    updateCart (some items) cart
      = (CartUpdateResp.itemInvalid i (missingFields (items.getD i d)), cart) := by
  simp [updateCart, validateItems_first_invalid items d i hi hbad hfirst]

/-- Witness for the amended C6 at a concrete one-item invalid request. -/
theorem c6_cart_update_rejects_at_first_invalid_witness :
    updateCart (some [inputMissingId]) [demoItem]
      = (CartUpdateResp.itemInvalid 0
          (missingFields ([inputMissingId].getD 0 inputValid)), [demoItem]) :=
  c6_cart_update_rejects_at_first_invalid [inputMissingId] [demoItem]
    inputValid 0 (by decide) (by decide) (fun j hj => absurd hj (Nat.not_lt_zero j))

/-- C9: a mail-transport failure during order confirmation is swallowed inside
`sendOrderConfirmationEmail` (it returns normally), the capture handler's
outcome is identical for every transport outcome, and a capture whose payment
completed still answers success with the finalized order even when the mail
transport failed. -/
theorem c9_mail_failure_never_fails_capture (userId oid ut em tok : String)
    (now : Nat) (ledger : List Order) (cart : List OrderItem) (order : Order)
    (hf : findOrder oid userId ledger = some order) :
    sendOrderConfirmationEmail MailOutcome.transportError = Except.ok () ∧
    (∀ m : MailOutcome,
      capturePaypalOrder userId (some oid) ⟨"COMPLETED", ut, em⟩ now m tok
          ledger cart
        = capturePaypalOrder userId (some oid) ⟨"COMPLETED", ut, em⟩ now
            MailOutcome.sent tok ledger cart) ∧
    (capturePaypalOrder userId (some oid) ⟨"COMPLETED", ut, em⟩ now
        MailOutcome.transportError tok ledger cart).1
      = CaptureResp.success (finalizeOrderDoc order oid "COMPLETED" ut em now) := by
  refine ⟨rfl, ?_, ?_⟩
  · intro m; cases m <;> rfl
  · simp [capturePaypalOrder, hf, getPayPalAccessToken,
      sendOrderConfirmationEmail, sendMailExternal]

/-- Witness for C9: concrete capture with a failing mail transport. -/
theorem c9_mail_failure_never_fails_capture_witness :
    (capturePaypalOrder "u1" (some "PP1") ⟨"COMPLETED", "t1", "payer@x"⟩ 1
        MailOutcome.transportError "tok" [demoPending] [demoItem]).1
      = CaptureResp.success
          (finalizeOrderDoc demoPending "PP1" "COMPLETED" "t1" "payer@x" 1) :=
  (c9_mail_failure_never_fails_capture "u1" "PP1" "t1" "payer@x" "tok" 1
    [demoPending] [demoItem] demoPending (by decide)).2.2

/-- C1 counterexample: replaying the same `COMPLETED` capture for `PP1` is not
a state-re-returning no-op. Both calls succeed, but they return different
final Orders (the replay re-stamps `paidAt` and `paymentResult`), and each
call saves the ledger, clears the cart and attempts the notification — so
across the two calls the ledger is mutated twice and the notification is
attempted twice, not once. -/
theorem c1_second_capture_not_noop_cex :
    captureRun1.1
        = CaptureResp.success
            (finalizeOrderDoc demoPending "PP1" "COMPLETED" "t1" "payer@x" 1) ∧
    captureRun2.1
        = CaptureResp.success
            (finalizeOrderDoc demoPending "PP1" "COMPLETED" "t2" "payer@x" 2) ∧
    captureRun1.1 ≠ captureRun2.1 ∧
    captureRun1.2.2.2.count Event.emailAttempt = 1 ∧
    captureRun2.2.2.2.count Event.emailAttempt = 1 ∧
    Event.ledgerSave ∈ captureRun2.2.2.2 ∧
    Event.cartClear "u1" ∈ captureRun2.2.2.2 := by decide

/-- C1 amended: the capture lookup filters only on
`(paymentResult.id, user)` — not on `orderStatus` — so EVERY capture call with
a `COMPLETED` gateway result on a matching order re-applies the finalizing
update (fresh `paidAt`, overwritten `paymentResult`), saves it, clears the
cart and attempts the notification again, returning the newly updated order
each time; a replayed capture is not a no-op. -/
theorem c1_capture_completed_always_reapplies (userId oid ut em tok : String)
    (now : Nat) (mail : MailOutcome) (ledger : List Order)
    (cart : List OrderItem) (order : Order)
    (hf : findOrder oid userId ledger = some order) :
    capturePaypalOrder userId (some oid) ⟨"COMPLETED", ut, em⟩ now mail tok
        ledger cart
      = (CaptureResp.success (finalizeOrderDoc order oid "COMPLETED" ut em now),
         updateFirst (fun o => o.paymentResult.id == some oid && o.user == userId)
           (fun _ => finalizeOrderDoc order oid "COMPLETED" ut em now) ledger,
         [],
         [Event.tokenRequest, Event.gwCapture oid,
          Event.ledgerFindOne oid userId, Event.ledgerSave,
          Event.cartClear userId, Event.emailAttempt]) := by
  cases mail <;>
    simp [capturePaypalOrder, hf, getPayPalAccessToken,
      sendOrderConfirmationEmail, sendMailExternal]

/-- Witness for the amended C1: re-capturing an order that is already
`completed` re-applies the update just the same. -/
theorem c1_capture_completed_always_reapplies_witness :
    capturePaypalOrder "u1" (some "PP1") ⟨"COMPLETED", "t9", "payer@x"⟩ 9
        MailOutcome.sent "tok" [demoCompleted] []
      = (CaptureResp.success
            (finalizeOrderDoc demoCompleted "PP1" "COMPLETED" "t9" "payer@x" 9),
         updateFirst (fun o => o.paymentResult.id == some "PP1" && o.user == "u1")
           (fun _ => finalizeOrderDoc demoCompleted "PP1" "COMPLETED" "t9" "payer@x" 9)
           [demoCompleted],
         [],
         [Event.tokenRequest, Event.gwCapture "PP1",
          Event.ledgerFindOne "PP1" "u1", Event.ledgerSave,
          Event.cartClear "u1", Event.emailAttempt]) :=
  c1_capture_completed_always_reapplies "u1" "PP1" "t9" "payer@x" "tok" 9
    MailOutcome.sent [demoCompleted] [] demoCompleted (by decide)

/-- C2 counterexample: a `COMPLETED` capture applied to an order that is
already `completed` (not pending) does NOT leave the order unchanged — the
replay re-stamps `paidAt`/`paymentResult`, so the stored ledger differs. -/
theorem c2_capture_on_nonpending_mutates_cex :
    demoCompleted.orderStatus = OrderStatus.completed ∧
    (capturePaypalOrder "u1" (some "PP1")
        { status := "COMPLETED", update_time := "t9", payer_email := "payer@x" }
        9 MailOutcome.sent "tok" [demoCompleted] []).2.1 ≠ [demoCompleted] := by
  decide

/-- C2 amended: `orderStatus` never moves anywhere except to `completed`:
after any capture call, every stored order's status is either its previous
status or `completed`. (The schema enum has no `failed` member and no
mark-failed operation exists, so `completed → failed` / `failed → completed`
transitions are impossible; but a non-pending order is NOT left untouched by a
replayed `COMPLETED` capture — only its status is stable, its
`paidAt`/`paymentResult` are re-stamped.) -/
theorem c2_capture_status_only_to_completed (userId : String)
    (orderID : Option String) (gw : GatewayCapture) (now : Nat)
    (mail : MailOutcome) (tok : String) (ledger : List Order)
    (cart : List OrderItem) (d : Order) (i : Nat) :
    ((capturePaypalOrder userId orderID gw now mail tok ledger cart).2.1.getD i d).orderStatus
        = (ledger.getD i d).orderStatus ∨
    ((capturePaypalOrder userId orderID gw now mail tok ledger cart).2.1.getD i d).orderStatus
        = OrderStatus.completed := by
  cases orderID with
  | none => exact Or.inl rfl
  | some oid =>
    cases hf : findOrder oid userId ledger with
    | none =>
      exact Or.inl (by simp [capturePaypalOrder, hf, getPayPalAccessToken])
    | some order =>
      by_cases hs : gw.status = "COMPLETED"
      · have hled : (capturePaypalOrder userId (some oid) gw now mail tok ledger cart).2.1
            = updateFirst
                (fun o => o.paymentResult.id == some oid && o.user == userId)
                (fun _ => finalizeOrderDoc order oid gw.status gw.update_time
                  gw.payer_email now) ledger := by
          cases mail <;>
            simp [capturePaypalOrder, hf, hs, getPayPalAccessToken,
              sendOrderConfirmationEmail, sendMailExternal]
        rw [hled]
        rcases updateFirst_getD
            (fun o => o.paymentResult.id == some oid && o.user == userId)
            (fun _ => finalizeOrderDoc order oid gw.status gw.update_time
              gw.payer_email now) ledger d i with h | h
        · exact Or.inl (by rw [h])
        · exact Or.inr (by rw [h]; rfl)
      · exact Or.inl (by simp [capturePaypalOrder, hf, hs, getPayPalAccessToken])

/-- C3 counterexample: the create handler stores the request's `totalPrice`
verbatim; submitting items summing to 2 together with `totalPrice = 999`
persists an order whose `totalPrice` (999) differs from
`Σ unitPrice × quantity` (2) of the snapshotted items. -/
theorem c3_total_not_item_sum_cex :
    (createPaypalOrder "u1" ⟨some [demoItem], 999⟩ "tok" "PP1" []).1
        = CreateResp.created "PP1" (createdOrderDoc "u1" [demoItem] 999 "PP1") ∧
    (createdOrderDoc "u1" [demoItem] 999 "PP1").totalPrice = 999 ∧
    specItemsTotal (createdOrderDoc "u1" [demoItem] 999 "PP1").orderItems = 2 ∧
    (createdOrderDoc "u1" [demoItem] 999 "PP1").totalPrice
      ≠ specItemsTotal (createdOrderDoc "u1" [demoItem] 999 "PP1").orderItems := by
  decide

/-- C3 amended: `totalPrice` is the request body's value stored verbatim at
creation (NOT a sum computed from the snapshotted items), and it is never
changed afterward: any capture call preserves every stored order's
`totalPrice` (and its `orderItems` snapshot). -/
theorem c3_total_stored_verbatim_never_recomputed (userId tok pid : String)
    (items : List OrderItem) (tp : Int) (ledger : List Order)
    (hne : items.length ≠ 0) (hp : 0 < tp)
    (cuid : String) (coid : Option String) (gw : GatewayCapture) (now : Nat)
    (mail : MailOutcome) (ctok : String) (l2 : List Order)
    (cart : List OrderItem) (d : Order) (i : Nat) :
    ((createPaypalOrder userId ⟨some items, tp⟩ tok pid ledger).1
        = CreateResp.created pid (createdOrderDoc userId items tp pid) ∧
      (createdOrderDoc userId items tp pid).totalPrice = tp ∧
      (createdOrderDoc userId items tp pid).orderItems = items) ∧
    ((capturePaypalOrder cuid coid gw now mail ctok l2 cart).2.1.getD i d).totalPrice
        = (l2.getD i d).totalPrice ∧
    ((capturePaypalOrder cuid coid gw now mail ctok l2 cart).2.1.getD i d).orderItems
        = (l2.getD i d).orderItems := by
  have hp' : ¬ tp ≤ 0 := not_le.mpr hp
  refine ⟨⟨by simp [createPaypalOrder, hne, hp', getPayPalAccessToken], rfl, rfl⟩, ?_⟩
  cases coid with
  | none => exact ⟨rfl, rfl⟩
  | some oid =>
    cases hf : findOrder oid cuid l2 with
    | none =>
      constructor <;> simp [capturePaypalOrder, hf, getPayPalAccessToken]
    | some order =>
      by_cases hs : gw.status = "COMPLETED"
      · have hled : (capturePaypalOrder cuid (some oid) gw now mail ctok l2 cart).2.1
            = updateFirst
                (fun o => o.paymentResult.id == some oid && o.user == cuid)
                (fun _ => finalizeOrderDoc order oid gw.status gw.update_time
                  gw.payer_email now) l2 := by
          cases mail <;>
            simp [capturePaypalOrder, hf, hs, getPayPalAccessToken,
              sendOrderConfirmationEmail, sendMailExternal]
        rw [hled]
        rcases updateFirst_find_getD
            (fun o => o.paymentResult.id == some oid && o.user == cuid)
            (fun _ => finalizeOrderDoc order oid gw.status gw.update_time
              gw.payer_email now) l2 order hf d i with h | ⟨h1, h2⟩
        · rw [h]; exact ⟨rfl, rfl⟩
        · rw [h1, h2]; exact ⟨rfl, rfl⟩
      · constructor <;>
          simp [capturePaypalOrder, hf, hs, getPayPalAccessToken]

/-- Witness for the amended C3: concrete creation storing 999 verbatim, and a
concrete capture preserving the stored `totalPrice`. -/
theorem c3_total_stored_verbatim_never_recomputed_witness :
    (createPaypalOrder "u1" ⟨some [demoItem], 999⟩ "tok" "PP1" []).1
        = CreateResp.created "PP1" (createdOrderDoc "u1" [demoItem] 999 "PP1") ∧
    ((capturePaypalOrder "u1" (some "PP1") demoGwOk 1 MailOutcome.sent "tok"
        [demoPending] []).2.1.getD 0 demoPending).totalPrice
        = ([demoPending].getD 0 demoPending).totalPrice := by
  have h := c3_total_stored_verbatim_never_recomputed "u1" "tok" "PP1"
    [demoItem] 999 [] (by decide) (by decide) "u1" (some "PP1") demoGwOk 1
    MailOutcome.sent "tok" [demoPending] [] demoPending 0
  exact ⟨h.1.1, h.2.1⟩
